import Mathlib

/-!
Shallow embedding of the core of the Profolio_FrontEnd_Task repository:
the data access gateway (src/services/api.js), the session store
(src/contexts/AuthProvider.jsx and the alternate AuthProvider variant),
and the inventory mutation engine of the store-inventory page
(src/pages/Inventory.jsx).  JavaScript numbers used as prices are
modelled as rationals, with an explicit NaN marker where parseFloat can
produce NaN; machine-level float behaviour is irrelevant to the claims.
-/

/-! ## Data Access Gateway (src/services/api.js) -/

/-- Body of an HTTP response after JSON decoding: the backing source can
be a single object or an array of records (the code checks
Array.isArray). -/
inductive JsonBody (α : Type) : Type
  | single (a : α)
  | array (xs : List α)
deriving DecidableEq

/-- Outcome of the browser fetch call inside fetchData: a network error
(fetch rejects), or a response carrying its ok flag and, when the body
is valid JSON, a decoded body (none models response.json() throwing). -/
inductive FetchResp (α : Type) : Type
  | netError
  | response (ok : Bool) (body : Option (JsonBody α))
deriving DecidableEq

/-- The try block of fetchData: throws (Except.error) on a network
error, on a non-ok status, and on a JSON parse failure; otherwise
returns the array as is and wraps a single object in a one-element
array. -/
def fetchDataTry {α : Type} (r : FetchResp α) : Except String (List α) :=
  match r with
  | .netError => .error "network error"
  | .response ok body =>
    if ok = false then .error "Failed to fetch"
    else
      match body with
      | none => .error "invalid json"
      | some (.array xs) => .ok xs
      | some (.single a) => .ok [a]

/-- fetchData from src/services/api.js: the catch clause turns every
thrown error into the empty array. -/
def fetchData {α : Type} (r : FetchResp α) : List α :=
  match fetchDataTry r with
  | .ok l => l
  | .error _ => []

/-- JavaScript short-circuit `env || default` over an optional
environment variable: an unset variable and the empty string are both
falsy. -/
def jsOr (v : Option String) (d : String) : String :=
  match v with
  | none => d
  | some s => if s = "" then d else s

/-- API_MODE from src/services/api.js line 1:
`import.meta.env.VITE_API_MODE || "api"`. -/
def apiModeOf (env : Option String) : String :=
  jsOr env "api"

/-- URL dispatch of fetchData (src/services/api.js lines 11-17). -/
def buildUrl (mode endpoint backendUrl mockUrl : String) : String :=
  if mode = "api" then backendUrl ++ "/" ++ endpoint
  else if mode = "mock" then mockUrl ++ "/" ++ endpoint
  else "/data/" ++ endpoint ++ ".json"

/-! ## Session Store (src/contexts/AuthProvider.jsx) -/

/-- A credential record from the users directory (public/data/users.json
shape: id, username, password, name, email). -/
structure UserRec : Type where
  id : Nat
  username : String
  password : String
  name : String
  email : String
deriving DecidableEq

/-- The non-secret identity installed in the session. -/
structure Identity : Type where
  id : Nat
  username : String
  name : String
  email : String
deriving DecidableEq

/-- The rest-destructuring `const { password: _, ...userWithoutPassword }`
of AuthProvider.jsx line 25: exactly the password field is removed. -/
def stripPassword (r : UserRec) : Identity :=
  ⟨r.id, r.username, r.name, r.email⟩

/-- Session state: the React user state plus the persisted localStorage
value (already decoded where valid). -/
structure AuthState : Type where
  session : Option Identity
  stored : Option Identity
deriving DecidableEq

/-- login from src/contexts/AuthProvider.jsx lines 17-35: finds the
first directory record matching username and password (case-sensitive
string equality); on a match it installs and persists the record with
the password stripped and returns true, otherwise it leaves the state
untouched and returns false.  The users argument is the list produced
by fetchData, which is empty when the directory is unreachable. -/
def login (users : List UserRec) (st : AuthState) (u p : String) :
    Bool × AuthState :=
  match users.find? (fun x => x.username == u && x.password == p) with
  | some r => (true, ⟨some (stripPassword r), some (stripPassword r)⟩)
  | none => (false, st)

/-- Outcome of the restore effect: either it completes having installed
an optional identity, or JSON.parse threw and the exception escaped the
effect. -/
inductive RestoreOutcome : Type
  | ok (u : Option Identity)
  | threw
deriving DecidableEq

/-- Restore effect of the AuthProvider imported by App.jsx
(src/contexts/AuthProvider.jsx lines 10-15).  The stored value is a raw
string; parse abstracts JSON.parse, returning none when it would throw.
There is no try/catch: a parse error escapes, and the stored value is
left in place.  The second component is the localStorage content after
the effect. -/
def restoreMain (parse : String → Option Identity)
    (storage : Option String) : RestoreOutcome × Option String :=
  match storage with
  | none => (.ok none, none)
  | some s =>
    match parse s with
    | some u => (.ok (some u), some s)
    | none => (.threw, some s)

/-- Restore effect of the alternate AuthProvider variant in the
repository (the unnamed source file, lines 9-18): the parse is wrapped
in try/catch, and the catch removes the corrupt stored value. -/
def restoreAlt (parse : String → Option Identity)
    (storage : Option String) : RestoreOutcome × Option String :=
  match storage with
  | none => (.ok none, none)
  | some s =>
    match parse s with
    | some u => (.ok (some u), some s)
    | none => (.ok none, none)

/-! ## Inventory Mutation Engine (src/pages/Inventory.jsx) -/

/-- An inventory row: `{id, store_id, book_id, price}`.  The price is
the value parseFloat produced; none models NaN (parseFloat of a
non-numeric string). -/
structure Entry : Type where
  id : Nat
  store_id : Nat
  book_id : Nat
  price : Option ℚ
deriving DecidableEq

/-- A catalog book as the inventory page uses it. -/
structure Book : Type where
  id : Nat
  name : String
  author_id : Nat
deriving DecidableEq

/-- A catalog author. -/
structure Author : Type where
  id : Nat
  name : String
deriving DecidableEq

/-- The price text sitting in the controlled input: the empty string
(falsy in the handlers' truthiness guards), a numeric string parsing to
q, or a non-empty non-numeric string (truthy, parseFloat gives NaN). -/
inductive PriceInput : Type
  | empty
  | num (q : ℚ)
  | nan
deriving DecidableEq

/-- parseFloat over the modelled input text (none is NaN; the empty
branch is unreachable behind the truthiness guards). -/
def parsePrice : PriceInput → Option ℚ
  | .empty => none
  | .num q => some q
  | .nan => none

/-- JS truthiness of the input string: only the empty string is falsy. -/
def PriceInput.truthy : PriceInput → Bool
  | .empty => false
  | _ => true

/-- handleAddBook from src/pages/Inventory.jsx lines 39-50: when a book
is selected and the price text is non-empty, appends
`{id: inventory.length + 1, store_id, book_id, price: parseFloat(...)}`.
There is no authorization check, no duplicate check and no price
validation in the handler; selected models selectedBookId (none is the
falsy empty selection). -/
def handleAddBook (inventory : List Entry) (storeId : Nat)
    (selected : Option Nat) (newPrice : PriceInput) : List Entry :=
  match selected with
  | none => inventory
  | some b =>
    if newPrice.truthy then
      inventory ++ [⟨inventory.length + 1, storeId, b, parsePrice newPrice⟩]
    else inventory

/-- handleDeleteBook from src/pages/Inventory.jsx lines 119-129: keeps
every row that is not the (storeId, bookId) row.  No authorization
check exists in the handler. -/
def handleDeleteBook (inventory : List Entry) (storeId bookId : Nat) :
    List Entry :=
  inventory.filter
    (fun item => !(item.store_id == storeId && item.book_id == bookId))

/-- The per-row update inside handleEditPrice: rows of the store with
the given book id get the new price, all other fields unchanged. -/
def editPriceRow (storeId bookId : Nat) (newPrice : Option ℚ)
    (item : Entry) : Entry :=
  if item.store_id == storeId && item.book_id == bookId then
    { item with price := newPrice }
  else item

/-- handleEditPrice from src/pages/Inventory.jsx lines 137-151. -/
def handleEditPrice (inventory : List Entry) (storeId bookId : Nat)
    (newPrice : Option ℚ) : List Entry :=
  inventory.map (editPriceRow storeId bookId newPrice)

/-- handleSaveEdit from src/pages/Inventory.jsx lines 52-57: when a row
is being edited and the price text is non-empty, applies
handleEditPrice with parseFloat of the text; no price validation. -/
def handleSaveEdit (inventory : List Entry) (storeId : Nat)
    (editing : Option Nat) (editPrice : PriceInput) : List Entry :=
  match editing with
  | none => inventory
  | some bookId =>
    if editPrice.truthy then
      handleEditPrice inventory storeId bookId (parsePrice editPrice)
    else inventory

/-- JavaScript Array.includes over the book-id list. -/
def includesNat (l : List Nat) (x : Nat) : Bool :=
  l.any (fun y => y == x)

/-- availableBooks from src/pages/Inventory.jsx lines 58-64: catalog
books whose id is not among the book ids of this store's inventory
rows, in catalog order. -/
def availableBooks (books : List Book) (inventory : List Entry)
    (storeId : Nat) : List Book :=
  let booksInStore :=
    (inventory.filter (fun item => item.store_id == storeId)).map
      (fun item => item.book_id)
  books.filter (fun book => !(includesNat booksInStore book.id))

/-- Lower-casing of a string as a character list (models
String.prototype.toLowerCase over the ASCII data of the tests). -/
def lowerStr (s : String) : List Char :=
  s.data.map Char.toLower

/-- Does the second list occur at the head of the first. -/
def leadsWith : List Char → List Char → Bool
  | [], _ => true
  | _ :: _, [] => false
  | a :: as, b :: bs => a == b && leadsWith as bs

/-- JavaScript String.includes: does the needle occur contiguously in
the haystack. -/
def containsChars (needle : List Char) : List Char → Bool
  | [] => leadsWith needle []
  | c :: t => leadsWith needle (c :: t) || containsChars needle t

/-- The filter predicate of filteredAvailableBooks:
`book.name.toLowerCase().includes(term.toLowerCase())` — the book name
only; the author name is not consulted. -/
def matchesName (term : String) (book : Book) : Bool :=
  containsChars (lowerStr term) (lowerStr book.name)

/-- JS truthiness of `bookSearchTerm.trim()`: true when the term has a
non-whitespace character. -/
def termNonBlank (s : String) : Bool :=
  s.data.any (fun c => !(c == ' ' || c == '\t' || c == '\n' || c == '\r'))

/-- filteredAvailableBooks from src/pages/Inventory.jsx lines 66-77:
filters the available books by a case-insensitive substring match on
the book name when the term is non-blank, then takes the first 7. -/
def filteredAvailableBooks (books : List Book) (inventory : List Entry)
    (storeId : Nat) (term : String) : List Book :=
  let avail := availableBooks books inventory storeId
  let filtered :=
    if termNonBlank term then avail.filter (matchesName term) else avail
  filtered.take 7

/-- Author-name lookup `authorMap[book.author_id]?.name || "Unknown"`. -/
def authorName (authors : List Author) (aid : Nat) : String :=
  match authors.find? (fun a => a.id == aid) with
  | some a => a.name
  | none => "Unknown"

/-- Modelled from the spec (for comparison with the source definition
filteredAvailableBooks): the claim's candidate filter, which applies
the case-insensitive substring filter over both the book name and the
author name, with the same 7-result cap. -/
def filteredAvailableBooksSpec (books : List Book) (authors : List Author)
    (inventory : List Entry) (storeId : Nat) (term : String) : List Book :=
  let avail := availableBooks books inventory storeId
  let filtered :=
    if termNonBlank term then
      avail.filter (fun b =>
        matchesName term b ||
          containsChars (lowerStr term) (lowerStr (authorName authors b.author_id)))
    else avail
  filtered.take 7

/-- Column headers of the inventory table (src/pages/Inventory.jsx
lines 153-186): the Actions column is appended only when the session is
authenticated. -/
def inventoryColumns (isAuthenticated : Bool) : List String :=
  let base := ["Book Id", "Name", "Pages", "Author", "Price"]
  if isAuthenticated then base ++ ["Actions"] else base

/-- Does the inventory hold a row for this (storeId, bookId) pair. -/
def hasEntry (inventory : List Entry) (storeId bookId : Nat) : Bool :=
  inventory.any (fun item => item.store_id == storeId && item.book_id == bookId)

/-- The rows of the inventory for one (storeId, bookId) pair. -/
def entriesFor (inventory : List Entry) (storeId bookId : Nat) : List Entry :=
  inventory.filter
    (fun item => item.store_id == storeId && item.book_id == bookId)

/-- The (store, book) key of a row. -/
def pairKey (e : Entry) : Nat × Nat :=
  (e.store_id, e.book_id)

/-- The uniqueness invariant: at most one row per (storeId, bookId). -/
def dupFree (inventory : List Entry) : Prop :=
  (inventory.map pairKey).Nodup

instance dupFreeDec (inventory : List Entry) : Decidable (dupFree inventory) :=
  inferInstanceAs (Decidable (List.Nodup _))

/-- The directory shipped in public/data/users.json (the repository's
documented test credentials). -/
def demoUsers : List UserRec :=
  [⟨1, "admin", "admin123", "Admin", "admin@example.com"⟩,
   ⟨2, "user", "user123", "User", "user@example.com"⟩]

/-! ## Helper lemmas -/

theorem includesNat_store_books (inventory : List Entry) (storeId x : Nat) :
    includesNat
      ((inventory.filter (fun item => item.store_id == storeId)).map
        (fun item => item.book_id)) x = hasEntry inventory storeId x := by
  induction inventory with
  | nil => rfl
  | cons e t ih =>
    by_cases h : e.store_id == storeId
    · simp only [hasEntry, includesNat, List.filter, h, List.map, List.any] at *
      simp [h, ih, Bool.or_assoc, Bool.and_comm]
    · simp only [hasEntry, includesNat, List.filter, h, List.map, List.any] at *
      simp [h, ih]

theorem mem_availableBooks (books : List Book) (inventory : List Entry)
    (storeId : Nat) (b : Book) :
    b ∈ availableBooks books inventory storeId ↔
      b ∈ books ∧ hasEntry inventory storeId b.id = false := by
  simp [availableBooks, List.mem_filter, includesNat_store_books]

theorem availableBooks_sublist (books : List Book) (inventory : List Entry)
    (storeId : Nat) :
    (availableBooks books inventory storeId).Sublist books :=
  List.filter_sublist books

theorem filteredAvailableBooks_sublist (books : List Book)
    (inventory : List Entry) (storeId : Nat) (term : String) :
    (filteredAvailableBooks books inventory storeId term).Sublist books := by
  unfold filteredAvailableBooks
  refine List.Sublist.trans (List.take_sublist _ _) ?_
  split
  · exact List.Sublist.trans (List.filter_sublist _)
      (availableBooks_sublist books inventory storeId)
  · exact availableBooks_sublist books inventory storeId

theorem filteredAvailableBooks_len (books : List Book)
    (inventory : List Entry) (storeId : Nat) (term : String) :
    (filteredAvailableBooks books inventory storeId term).length ≤ 7 := by
  unfold filteredAvailableBooks
  exact List.length_take_le _ _

theorem filteredAvailableBooks_all (books : List Book)
    (inventory : List Entry) (storeId : Nat) (term : String) :
    (filteredAvailableBooks books inventory storeId term).all
      (fun x => !hasEntry inventory storeId x.id &&
        (!termNonBlank term || matchesName term x)) = true := by
  rw [List.all_eq_true]
  intro x hx
  unfold filteredAvailableBooks at hx
  have hx2 := (List.take_sublist _ _).subset hx
  by_cases h : termNonBlank term
  · simp only [h, if_true] at hx2
    have hmem := List.mem_filter.mp hx2
    have hav := (mem_availableBooks books inventory storeId x).mp hmem.1
    simp [hav.2, hmem.2]
  · simp only [h, if_false] at hx2
    have hav := (mem_availableBooks books inventory storeId x).mp hx2
    simp [hav.2, h]

theorem pairKey_editPriceRow (storeId bookId : Nat) (p : Option ℚ) (e : Entry) :
    pairKey (editPriceRow storeId bookId p e) = pairKey e := by
  unfold editPriceRow
  split <;> rfl

theorem map_pairKey_editPrice (inventory : List Entry) (storeId bookId : Nat)
    (p : Option ℚ) :
    (handleEditPrice inventory storeId bookId p).map pairKey =
      inventory.map pairKey := by
  unfold handleEditPrice
  induction inventory with
  | nil => rfl
  | cons e t ih => simp [pairKey_editPriceRow, ih]

theorem editPrice_preserves_dupFree (inventory : List Entry)
    (storeId bookId : Nat) (p : Option ℚ) (h : dupFree inventory) :
    dupFree (handleEditPrice inventory storeId bookId p) := by
  unfold dupFree at *
  rw [map_pairKey_editPrice]
  exact h

theorem delete_preserves_dupFree (inventory : List Entry)
    (storeId bookId : Nat) (h : dupFree inventory) :
    dupFree (handleDeleteBook inventory storeId bookId) := by
  unfold dupFree at *
  exact ((List.filter_sublist inventory).map pairKey).nodup h

theorem hasEntry_false_not_mem (inventory : List Entry) (storeId b : Nat)
    (h : hasEntry inventory storeId b = false) :
    (storeId, b) ∉ inventory.map pairKey := by
  intro hmem
  rcases List.mem_map.mp hmem with ⟨e, he, hk⟩
  unfold pairKey at hk
  have h1 : e.store_id = storeId := congrArg Prod.fst hk
  have h2 : e.book_id = b := congrArg Prod.snd hk
  have hany : inventory.any
      (fun item => item.store_id == storeId && item.book_id == b) = true := by
    rw [List.any_eq_true]
    exact ⟨e, he, by simp [h1, h2]⟩
  rw [hasEntry] at h
  simp [hany] at h

theorem add_preserves_dupFree (inventory : List Entry) (storeId b : Nat)
    (q : ℚ) (h : dupFree inventory)
    (hb : hasEntry inventory storeId b = false) :
    dupFree (handleAddBook inventory storeId (some b) (.num q)) := by
  unfold dupFree handleAddBook at *
  simp only [PriceInput.truthy, if_true]
  rw [List.map_append, List.nodup_append]
  refine ⟨h, List.nodup_singleton _, ?_⟩
  intro x hx hx2
  simp only [List.map_cons, List.map_nil, List.mem_singleton] at hx2
  subst hx2
  exact hasEntry_false_not_mem inventory storeId b hb hx

/-! ## Claim theorems -/

/-- Claim C1: login(u, p) returns true if and only if the user
directory contains a credential record whose username equals u and
whose password equals p under case-sensitive exact comparison; when it
returns true, the installed and persisted Identity is the matching
record with exactly the password field removed; when it returns false
the session and storage are untouched. -/
theorem login_matches (users : List UserRec) (st : AuthState) (u p : String) :
    ((login users st u p).1 = true ↔
      ∃ r ∈ users, r.username = u ∧ r.password = p) ∧
    ((login users st u p).1 = true →
      ∃ r ∈ users, r.username = u ∧ r.password = p ∧
        (login users st u p).2 =
          ⟨some (stripPassword r), some (stripPassword r)⟩) ∧
    ((login users st u p).1 = false → (login users st u p).2 = st) := by
  unfold login
  cases hf : users.find? (fun x => x.username == u && x.password == p) with
  | none =>
    rw [List.find?_eq_none] at hf
    refine ⟨?_, ?_, ?_⟩
    · constructor
      · intro h; simp at h
      · rintro ⟨r, hr, h1, h2⟩
        exact absurd (by simp [h1, h2]) (hf r hr)
    · intro h; simp at h
    · intro _; rfl
  | some r =>
    have hm := List.mem_of_find?_eq_some hf
    have hp := List.find?_some hf
    simp only [Bool.and_eq_true, beq_iff_eq] at hp
    refine ⟨?_, ?_, ?_⟩
    · simp only [true_iff]
      exact ⟨r, hm, hp.1, hp.2⟩
    · intro _
      exact ⟨r, hm, hp.1, hp.2, rfl⟩
    · intro h; simp at h

/-- Witness for Claim C1 at the repository's documented credentials:
login with admin/admin123 succeeds and installs the stripped record. -/
theorem login_matches_witness :
    ∃ r ∈ demoUsers, r.username = "admin" ∧ r.password = "admin123" ∧
      (login demoUsers ⟨none, none⟩ "admin" "admin123").2 =
        ⟨some (stripPassword r), some (stripPassword r)⟩ :=
  (login_matches demoUsers ⟨none, none⟩ "admin" "admin123").2.1 (by decide)

/-- Claim C2 (failing input): with no identity in the session the
Actions column is indeed absent from the rendered table, but the
mutation handlers themselves contain no authorization check at all —
invoked directly they mutate the collection instead of returning
Unauthorized.  The handler models take no session input because the
source handlers consult none. -/
theorem unauth_handlers_mutate :
    inventoryColumns false = ["Book Id", "Name", "Pages", "Author", "Price"] ∧
    (inventoryColumns false).contains "Actions" = false ∧
    handleAddBook [] 5 (some 42) (.num 20) = [⟨1, 5, 42, some 20⟩] ∧
    handleAddBook [] 5 (some 42) (.num 20) ≠ [] ∧
    handleDeleteBook [⟨1, 5, 42, some 10⟩] 5 42 = [] ∧
    handleEditPrice [⟨1, 5, 42, some 10⟩] 5 42 (some 3) =
      [⟨1, 5, 42, some 3⟩] := by
  decide

/-- Claim C3 counterexample: on the one-row collection whose only
entryId is 2, a successful add assigns entryId length + 1 = 2, which is
not strictly greater than the existing entryId 2 — the ids are not even
distinct afterwards. -/
theorem addBook_id_not_fresh :
    handleAddBook [⟨2, 5, 7, some 10⟩] 5 (some 42) (.num 20) =
      [⟨2, 5, 7, some 10⟩, ⟨2, 5, 42, some 20⟩] ∧
    ¬ ((handleAddBook [⟨2, 5, 7, some 10⟩] 5 (some 42) (.num 20)).map
        Entry.id).Nodup := by
  decide

/-- Claim C3 amended: a successful add assigns entryId equal to the
number of rows in the collection plus one — 1 on the empty collection —
and that id exceeds every existing id only under the extra assumption
that every existing id is at most the number of rows. -/
theorem addBook_assigns_len_succ (inv : List Entry) (sid b : Nat) (q : ℚ) :
    handleAddBook inv sid (some b) (.num q) =
      inv ++ [⟨inv.length + 1, sid, b, some q⟩] ∧
    handleAddBook [] sid (some b) (.num q) = [⟨1, sid, b, some q⟩] ∧
    (inv.all (fun e => decide (e.id ≤ inv.length)) = true →
      inv.all (fun e => decide (e.id < inv.length + 1)) = true) := by
  refine ⟨rfl, rfl, ?_⟩
  intro h
  rw [List.all_eq_true] at h ⊢
  intro e he
  have := h e he
  simp only [decide_eq_true_eq] at this ⊢
  omega

/-- Witness for Claim C3's amended theorem on a singleton collection
with id 1. -/
theorem addBook_assigns_len_succ_witness :
    [(⟨1, 5, 7, some 10⟩ : Entry)].all
      (fun e => decide (e.id < [(⟨1, 5, 7, (some 10 : Option ℚ)⟩ : Entry)].length + 1)) = true :=
  (addBook_assigns_len_succ [⟨1, 5, 7, some 10⟩] 5 42 20).2.2 (by decide)

/-- Claim C4 counterexample: adding the same (storeId, bookId) pair
twice yields two successes and two rows for the pair — there is no
DuplicateEntry rejection. -/
theorem addBook_duplicate_succeeds :
    handleAddBook (handleAddBook [] 5 (some 42) (.num 10)) 5 (some 42)
        (.num 5) =
      [⟨1, 5, 42, some 10⟩, ⟨2, 5, 42, some 5⟩] ∧
    (entriesFor
        (handleAddBook (handleAddBook [] 5 (some 42) (.num 10)) 5 (some 42)
          (.num 5)) 5 42).length = 2 := by
  decide

/-- Claim C4 amended: the add handler performs no duplicate check — a
successful add always increases the row count for its (storeId, bookId)
pair by one, duplicate or not; duplicates are avoided only upstream,
because the add dialog's candidate list contains exactly the catalog
books with no row for the store. -/
theorem addBook_no_dup_check (inv : List Entry) (sid b : Nat) (q : ℚ)
    (books : List Book) (bk : Book) :
    (entriesFor (handleAddBook inv sid (some b) (.num q)) sid b).length =
      (entriesFor inv sid b).length + 1 ∧
    (bk ∈ availableBooks books inv sid ↔
      bk ∈ books ∧ hasEntry inv sid bk.id = false) := by
  constructor
  · simp [entriesFor, handleAddBook, PriceInput.truthy, List.filter_append]
  · exact mem_availableBooks books inv sid bk

/-- Claim C5 counterexample: the singleton collection satisfies the
at-most-one-row-per-pair invariant, and a direct add of the already
stocked book breaks it. -/
theorem pair_invariant_broken_by_add :
    dupFree [⟨1, 5, 42, some 10⟩] ∧
    ¬ dupFree (handleAddBook [⟨1, 5, 42, some 10⟩] 5 (some 42) (.num 3)) := by
  decide

/-- Claim C5 amended: delete and price update always preserve the
at-most-one-row-per-pair invariant; add preserves it only under the
extra hypothesis that the added book has no row for the store yet
(which the candidate list guarantees for UI-initiated adds, but the
handler itself does not check). -/
theorem mutations_preserve_pair_uniqueness (inv : List Entry)
    (sid bid b : Nat) (q : ℚ) (p : Option ℚ) :
    (dupFree inv → dupFree (handleDeleteBook inv sid bid)) ∧
    (dupFree inv → dupFree (handleEditPrice inv sid bid p)) ∧
    (dupFree inv → hasEntry inv sid b = false →
      dupFree (handleAddBook inv sid (some b) (.num q))) :=
  ⟨delete_preserves_dupFree inv sid bid,
   editPrice_preserves_dupFree inv sid bid p,
   fun h hb => add_preserves_dupFree inv sid b q h hb⟩

/-- Witness for Claim C5's amended theorem on concrete collections. -/
theorem mutations_preserve_pair_uniqueness_witness :
    dupFree (handleDeleteBook [⟨1, 5, 42, some 10⟩] 5 42) ∧
    dupFree (handleEditPrice [⟨1, 5, 42, some 10⟩] 5 42 (some 7)) ∧
    dupFree (handleAddBook [] 5 (some 42) (.num 3)) :=
  ⟨(mutations_preserve_pair_uniqueness [⟨1, 5, 42, some 10⟩] 5 42 9 3
      (some 7)).1 (by decide),
   (mutations_preserve_pair_uniqueness [⟨1, 5, 42, some 10⟩] 5 42 9 3
      (some 7)).2.1 (by decide),
   (mutations_preserve_pair_uniqueness [] 5 0 42 3 none).2.2 (by decide)
      (by decide)⟩

/-- Claim C6 counterexample: in the AuthProvider imported by App.jsx, a
stored value that fails to parse makes the restore effect throw and
leaves the corrupt value in storage — it is not the fail-open-and-
delete outcome the claim describes. -/
theorem restore_throws_on_corrupt :
    restoreMain (fun _ => none) (some "x") = (.threw, some "x") ∧
    ((RestoreOutcome.threw, some "x") : RestoreOutcome × Option String) ≠
      (RestoreOutcome.ok none, none) := by
  decide

/-- Claim C6 amended: restore() installs the persisted identity when
one parses; in the AuthProvider imported by the application a parse
error is unhandled — the exception propagates and the corrupt value
stays in storage — while the alternate AuthProvider variant in the
repository fails open and deletes the corrupt value as the claim
states. -/
theorem restore_behaviour (parse : String → Option Identity) (s : String) :
    restoreMain parse none = (.ok none, none) ∧
    (∀ u, parse s = some u →
      restoreMain parse (some s) = (.ok (some u), some s)) ∧
    (parse s = none → restoreMain parse (some s) = (.threw, some s)) ∧
    (parse s = none → restoreAlt parse (some s) = (.ok none, none)) ∧
    (∀ u, parse s = some u →
      restoreAlt parse (some s) = (.ok (some u), some s)) := by
  refine ⟨rfl, ?_, ?_, ?_, ?_⟩
  · intro u h; simp [restoreMain, h]
  · intro h; simp [restoreMain, h]
  · intro h; simp [restoreAlt, h]
  · intro u h; simp [restoreAlt, h]

/-- Witness for Claim C6's amended theorem at a concrete failing
parse. -/
theorem restore_behaviour_witness :
    restoreMain (fun _ => none) (some "oops") = (.threw, some "oops") ∧
    restoreAlt (fun _ => none) (some "oops") = (.ok none, none) :=
  ⟨(restore_behaviour (fun _ => none) "oops").2.2.1 rfl,
   (restore_behaviour (fun _ => none) "oops").2.2.2.1 rfl⟩

/-- Claim C7 counterexample: a negative price is accepted by both the
add handler and the edit handler, and a NaN price is stored by the add
handler — the collection changes and nothing is rejected, against the
claimed InvalidPrice rule. -/
theorem negative_price_accepted :
    handleAddBook [] 5 (some 42) (.num (-5)) ≠ [] ∧
    handleAddBook [] 5 (some 42) (.num (-5)) = [⟨1, 5, 42, some (-5)⟩] ∧
    handleSaveEdit [⟨1, 5, 42, some 10⟩] 5 (some 42) (.num (-3)) =
      [⟨1, 5, 42, some (-3)⟩] ∧
    handleAddBook [] 5 (some 42) .nan = [⟨1, 5, 42, none⟩] := by
  decide

/-- Claim C7 amended: the only price validation in the handlers is JS
truthiness of the raw input text — an empty input makes both handlers
no-ops, while any non-empty input, negative or non-numeric (NaN), is
accepted and stored; no InvalidPrice rejection exists. -/
theorem price_unvalidated (inv : List Entry) (sid b : Nat) (q : ℚ) :
    handleAddBook inv sid (some b) .empty = inv ∧
    handleSaveEdit inv sid (some b) .empty = inv ∧
    (q < 0 → handleAddBook inv sid (some b) (.num q) =
      inv ++ [⟨inv.length + 1, sid, b, some q⟩]) ∧
    handleAddBook inv sid (some b) .nan =
      inv ++ [⟨inv.length + 1, sid, b, none⟩] :=
  ⟨rfl, rfl, fun _ => rfl, rfl⟩

/-- Witness for Claim C7's amended theorem at the concrete negative
price -5. -/
theorem price_unvalidated_witness :
    handleAddBook [] 5 (some 42) (.num (-5)) =
      ([] : List Entry) ++ [⟨([] : List Entry).length + 1, 5, 42, some (-5)⟩] :=
  (price_unvalidated [] 5 42 (-5)).2.2.1 (by decide)

/-- Claim C8 counterexample: with one available book whose author name
matches the search term but whose title does not, the source filter
returns nothing while the claim's name-or-author filter returns the
book — the code searches the book name only. -/
theorem author_term_not_matched :
    filteredAvailableBooks [⟨1, "alpha", 10⟩] [] 1 "zet" = [] ∧
    filteredAvailableBooksSpec [⟨1, "alpha", 10⟩] [⟨10, "zeta"⟩] [] 1 "zet" =
      [⟨1, "alpha", 10⟩] := by
  decide

/-- Claim C8 amended: the candidate list is a sublist of the catalog
(catalog order, no re-sorting), capped at 7 results; a book is
available exactly when it is in the catalog and has no inventory row
for the store; and every returned book is available and, when the term
is non-blank, matches the case-insensitive substring filter over the
book name only — the author name is not searched. -/
theorem candidate_list_props (books : List Book) (inv : List Entry)
    (sid : Nat) (term : String) (b : Book) :
    (filteredAvailableBooks books inv sid term).Sublist books ∧
    (filteredAvailableBooks books inv sid term).length ≤ 7 ∧
    (b ∈ availableBooks books inv sid ↔
      b ∈ books ∧ hasEntry inv sid b.id = false) ∧
    (filteredAvailableBooks books inv sid term).all
      (fun x => !hasEntry inv sid x.id &&
        (!termNonBlank term || matchesName term x)) = true :=
  ⟨filteredAvailableBooks_sublist books inv sid term,
   filteredAvailableBooks_len books inv sid term,
   mem_availableBooks books inv sid b,
   filteredAvailableBooks_all books inv sid term⟩

/-- Claim C9: fetchData always returns a sequence — a single-object
body is wrapped in a one-element list, an array body is returned as is,
and every failure (network error, non-ok status, JSON parse failure) is
caught and yields the empty list; every thrown error of the try block
is swallowed by the catch, so no exception reaches the caller. -/
theorem fetchData_contract {α : Type} (r : FetchResp α) (a : α)
    (xs : List α) (body : Option (JsonBody α)) :
    fetchData (.response true (some (.single a))) = [a] ∧
    fetchData (.response true (some (.array xs))) = xs ∧
    fetchData (FetchResp.netError : FetchResp α) = [] ∧
    fetchData (.response false body) = [] ∧
    ((∃ e, fetchDataTry r = .error e ∧ fetchData r = []) ∨
      fetchDataTry r = .ok (fetchData r)) := by
  refine ⟨rfl, rfl, rfl, rfl, ?_⟩
  cases r with
  | netError => exact Or.inl ⟨_, rfl, rfl⟩
  | response ok body =>
    cases ok with
    | false => exact Or.inl ⟨_, rfl, rfl⟩
    | true =>
      cases body with
      | none => exact Or.inl ⟨_, rfl, rfl⟩
      | some jb =>
        cases jb with
        | single a2 => exact Or.inr rfl
        | array xs2 => exact Or.inr rfl

/-- Claim C10: the mode dispatch of fetchData is total — "api" targets
the backend base URL, "mock" the mock-server base URL, and every other
mode string, "local" included, resolves to the static file path
/data/(endpoint).json; an unset mode variable defaults to "api". -/
theorem url_dispatch (e bUrl mUrl mode : String) :
    buildUrl "api" e bUrl mUrl = bUrl ++ "/" ++ e ∧
    buildUrl "mock" e bUrl mUrl = mUrl ++ "/" ++ e ∧
    buildUrl "local" e bUrl mUrl = "/data/" ++ e ++ ".json" ∧
    (mode ≠ "api" → mode ≠ "mock" →
      buildUrl mode e bUrl mUrl = "/data/" ++ e ++ ".json") ∧
    apiModeOf none = "api" := by
    refine ⟨?_, ?_, ?_, ?_, rfl⟩
    · simp [buildUrl]
    · simp [buildUrl]
    · simp [buildUrl]
    · intro h1 h2
      simp [buildUrl, h1, h2]

/-- Witness for Claim C10 at a concrete unrecognized mode string. -/
theorem url_dispatch_witness :
    buildUrl "weird" "books" "B" "M" = "/data/" ++ "books" ++ ".json" :=
  (url_dispatch "books" "B" "M" "weird").2.2.2.1 (by decide) (by decide)
